import Mathlib

/-
Shallow embedding of the NeverBounce API client core (neverbounce_sdk/core.py):
authentication resolution, response validation and status-to-error mapping,
and the scoped session lifecycle. Python objects become Lean structures,
Python None becomes Option.none, and raising becomes returning Except.error.
The HTTP transport is an oracle function from requests to responses.
-/

/-- Modelled from the spec: the auth module is not under src. An AuthStrategy
wrapping a static credential token so it can be attached to outgoing requests.
It is a plain object, so in Python truthiness tests it is always truthy,
whatever the token value. -/
structure StaticTokenAuth where
  token : String
deriving DecidableEq

/-- A requests session: it may carry its own auth strategy, and closing it
sets the closed flag. At most one session per client. -/
structure Session where
  auth : Option StaticTokenAuth
  closed : Bool
deriving DecidableEq

/-- The client state of APICore: the stored strategy (the _auth attribute,
none when cleared) and the optional session. -/
structure APICore where
  _auth : Option StaticTokenAuth
  session : Option Session
deriving DecidableEq

/-- The values the Python auth setter accepts: None, an already constructed
StaticTokenAuth, or any other raw credential value (a token string). -/
inductive AuthVal where
  | pyNone
  | strategy (s : StaticTokenAuth)
  | raw (tok : String)
deriving DecidableEq

/-- The auth.setter of APICore: None clears, a StaticTokenAuth is stored
unchanged, anything else is wrapped into StaticTokenAuth(val). -/
def setAuth : AuthVal → Option StaticTokenAuth
  | .pyNone => none
  | .strategy s => some s
  | .raw t => some { token := t }

/-- The auth property getter of APICore: if self.session is set and
self._auth is falsy (None), fall back to self.session.auth;
otherwise return self._auth. -/
def APICore.auth (c : APICore) : Option StaticTokenAuth :=
  match c.session, c._auth with
  | some s, none => s.auth
  | _, a => a

/-- A value of a wire parameter: a string or an integer. -/
inductive ParamValue where
  | str (s : String)
  | int (n : Int)
deriving DecidableEq

/-- An outgoing request as assembled by _make_request: method, url, query
parameters, the auth that was merged into the keyword arguments, and whether
it is dispatched through the session or the one-off transport. -/
structure Request where
  method : String
  url : String
  params : List (String × ParamValue)
  auth : Option StaticTokenAuth
  viaSession : Bool
deriving DecidableEq

/-- APICore._make_request: if the caller did not supply a truthy auth keyword
argument, merge in self.auth (which itself falls back to the session auth);
dispatch through self.session when one is set, else through requests. -/
def APICore._make_request (c : APICore) (method url : String)
    (params : List (String × ParamValue))
    (kwargsAuth : Option StaticTokenAuth) : Request :=
  let a :=
    match kwargsAuth with
    | some x => some x
    | none => c.auth
  { method := method, url := url, params := params, auth := a,
    viaSession := c.session.isSome }

/-- The parsed JSON body of an API response: the fields core.py reads.
Each is optional because the code accesses them by key or with dict.get. -/
structure Payload where
  status : Option String
  message : Option String
  execution_time : Option Nat
deriving DecidableEq

/-- A transport response: whether raise_for_status would raise (a non-2xx
HTTP status) and the parsed JSON payload. -/
structure Response where
  httpError : Bool
  json : Payload
deriving DecidableEq

/-- The exception kinds of the error taxonomy, one per recognized API status
string plus the catch-all general_failure. -/
inductive ErrorKind where
  | general_failure
  | auth_failure
  | throttle_triggered
  | bad_referrer
  | invalid_credentials
deriving DecidableEq

/-- Modelled from the spec: the exceptions module is not under src. The fixed
mapping from API status strings to exception kinds, with general_failure as
the catch-all for any status not otherwise enumerated. -/
def _status_to_exception (s : String) : ErrorKind :=
  if s = "auth_failure" then .auth_failure
  else if s = "throttle_triggered" then .throttle_triggered
  else if s = "bad_referrer" then .bad_referrer
  else if s = "invalid_credentials" then .invalid_credentials
  else .general_failure

/-- Everything _check_response can raise: the transport error from
raise_for_status, the generic NeverBounceAPIException carrying the raw
payload when the status field is missing, and the per-status API error kinds
constructed from message and execution_time. -/
inductive CheckError where
  | httpStatusError
  | NeverBounceAPIException (payload : Payload)
  | apiError (kind : ErrorKind) (message : Option String)
      (execution_time : Option Nat)
deriving DecidableEq

/-- APICore._check_response: raise on a transport error, raise
NeverBounceAPIException(resp.json()) when the status key is missing, return
the response unchanged on status success, and otherwise raise the mapped
exception kind built from the optional message and execution_time fields,
rewriting the message to a fixed local string when the status is
auth_failure and no auth is resolved on the client. The embedding is a pure
function, so the client state is untouched on every path. -/
def APICore._check_response (c : APICore) (resp : Response) :
    Except CheckError Response :=
  if resp.httpError then .error .httpStatusError
  else
    let data := resp.json
    match data.status with
    | none => .error (.NeverBounceAPIException data)
    | some api_status =>
      if api_status = "success" then .ok resp
      else
        let exc := _status_to_exception api_status
        let message := data.message
        let execution_time := data.execution_time
        let message :=
          if api_status = "auth_failure" ∧ c.auth = none
          then some "NeverBounceAPIClient.auth is not set"
          else message
        .error (.apiError exc message execution_time)

/-- The session requests.session() creates on scope entry: no auth of its
own and not yet closed. -/
def freshSession : Session := { auth := none, closed := false }

/-- APICore.__enter__: if no session is set, store a fresh
requests.session(); return self. -/
def APICore.__enter__ (c : APICore) : APICore :=
  match c.session with
  | none => { c with session := some freshSession }
  | some _ => c

/-- The failure mode of __exit__: self.session is None, so calling close on
it raises an AttributeError. -/
inductive ExitError where
  | attributeErrorNoneClose
deriving DecidableEq

/-- APICore.__exit__: unconditionally calls self.session.close() and then
clears self.session. When self.session is None this raises; otherwise it
returns the client with the reference cleared, together with the closed
session. -/
def APICore.__exit__ (c : APICore) : Except ExitError (APICore × Session) :=
  match c.session with
  | none => .error .attributeErrorNoneClose
  | some s => .ok ({ c with session := none }, { s with closed := true })

/-- The with-statement protocol over APICore: call __enter__, run the body
(which returns the possibly updated client and whether it raised), then call
__exit__ on every path, raised or not, exactly as the Python with statement
guarantees. -/
def runWithScope (c : APICore) (body : APICore → APICore × Bool) :
    Except ExitError ((APICore × Session) × Bool) :=
  let c1 := c.__enter__
  let res := body c1
  match res.fst.__exit__ with
  | .error e => .error e
  | .ok cs => .ok (cs, res.snd)

/-- Modelled from the spec: the utils module is not under src. The fixed base
endpoint of the API. -/
def API_BASE : String := "https://api.neverbounce.com/v4"

/-- Modelled from the spec: urlfor builds the request url from the fixed API
base and the named endpoint segments. -/
def urlfor (section_ action : String) : String :=
  API_BASE ++ "/" ++ section_ ++ "/" ++ action

/-- Python int() on a boolean: True becomes 1, False becomes 0. -/
def pyInt (b : Bool) : Int := if b then 1 else 0

/-- NeverBounceAPIClient.verify: builds the GET request to the single/check
endpoint with the email, the boolean flags converted to 0 or 1, and
max_execution_time, sends it through the transport oracle, checks the
response, and returns the parsed payload. The pair is the issued request and
the outcome. -/
def NeverBounceAPIClient.verify (c : APICore) (transport : Request → Response)
    (email : String) (address_info credits_info : Bool)
    (max_execution_time : Int) : Request × Except CheckError Payload :=
  let endpoint := urlfor "single" "check"
  let params : List (String × ParamValue) :=
    [("email", .str email),
     ("address_info", .int (pyInt address_info)),
     ("credits_info", .int (pyInt credits_info)),
     ("max_execution_time", .int max_execution_time)]
  let req := c._make_request "GET" endpoint params none
  let resp := transport req
  (req,
   match c._check_response resp with
   | .error e => .error e
   | .ok r => .ok r.json)

/-- The client used in concrete counterexamples about auth resolution: its
auth was set to the empty string credential, and it has a session whose own
auth is a token. -/
def c3client : APICore :=
  { _auth := setAuth (.raw ""),
    session := some { auth := some { token := "sessiontok" }, closed := false } }

/-- C7: for every transport-successful response whose parsed body has status
equal to success, _check_response returns the response unchanged and raises
nothing; the embedding is a pure function of the client, so the client state
has no further side effects. -/
theorem check_response_success (c : APICore) (resp : Response)
    (h1 : resp.httpError = false) (h2 : resp.json.status = some "success") :
    c._check_response resp = .ok resp := by
  simp [APICore._check_response, h1, h2]

theorem check_response_success_witness :
    ({ _auth := none, session := none } : APICore)._check_response
      { httpError := false,
        json := { status := some "success", message := none,
                  execution_time := none } } =
    .ok { httpError := false,
          json := { status := some "success", message := none,
                    execution_time := none } } :=
  check_response_success _ _ rfl rfl

/-- C6: for every response whose parsed body lacks a status field,
_check_response raises the generic NeverBounceAPIException carrying the full
raw parsed payload, a constructor distinct from every per-status apiError. -/
theorem check_response_missing_status (c : APICore) (resp : Response)
    (h1 : resp.httpError = false) (h2 : resp.json.status = none) :
    c._check_response resp = .error (.NeverBounceAPIException resp.json) ∧
    ∀ (k : ErrorKind) (m : Option String) (t : Option Nat),
      CheckError.NeverBounceAPIException resp.json ≠ .apiError k m t := by
  refine ⟨?_, fun k m t h => by cases h⟩
  simp [APICore._check_response, h1, h2]

theorem check_response_missing_status_witness :
    ({ _auth := none, session := none } : APICore)._check_response
      { httpError := false,
        json := { status := none, message := some "hello",
                  execution_time := none } } =
    .error (.NeverBounceAPIException
      { status := none, message := some "hello", execution_time := none }) :=
  (check_response_missing_status _ _ rfl rfl).1

/-- C1: for every response whose status is a non-success string not
enumerated in the error taxonomy, _check_response raises the catch-all
general_failure kind, because _status_to_exception is a total mapping that
falls back to general_failure instead of failing the lookup. -/
theorem check_response_unrecognized_status (c : APICore) (resp : Response)
    (s : String)
    (h1 : resp.httpError = false) (h2 : resp.json.status = some s)
    (h3 : s ≠ "success") (h4 : s ≠ "auth_failure")
    (h5 : s ≠ "throttle_triggered") (h6 : s ≠ "bad_referrer")
    (h7 : s ≠ "invalid_credentials") (_h8 : s ≠ "general_failure") :
    c._check_response resp =
      .error (.apiError .general_failure resp.json.message
        resp.json.execution_time) := by
  simp [APICore._check_response, _status_to_exception, h1, h2, h3, h4, h5,
    h6, h7]

theorem check_response_unrecognized_status_witness :
    ({ _auth := none, session := none } : APICore)._check_response
      { httpError := false,
        json := { status := some "weird_status", message := some "m",
                  execution_time := some 2 } } =
    .error (.apiError .general_failure (some "m") (some 2)) :=
  check_response_unrecognized_status _ _ "weird_status" rfl rfl
    (by decide) (by decide) (by decide) (by decide) (by decide) (by decide)

/-- C2: for every response whose status is auth_failure, the raised error
carries the fixed local message when the resolved auth of the client is
absent, and the server message verbatim when an auth is resolved. -/
theorem check_response_auth_failure_message (c : APICore) (resp : Response)
    (h1 : resp.httpError = false)
    (h2 : resp.json.status = some "auth_failure") :
    c._check_response resp =
      .error (.apiError .auth_failure
        (if c.auth = none then some "NeverBounceAPIClient.auth is not set"
         else resp.json.message)
        resp.json.execution_time) := by
  simp [APICore._check_response, _status_to_exception, h1, h2]

theorem check_response_auth_failure_message_witness :
    (({ _auth := none, session := none } : APICore)._check_response
      { httpError := false,
        json := { status := some "auth_failure", message := some "server text",
                  execution_time := some 7 } } =
      .error (.apiError .auth_failure
        (some "NeverBounceAPIClient.auth is not set") (some 7))) ∧
    (({ _auth := some { token := "k" }, session := none } :
        APICore)._check_response
      { httpError := false,
        json := { status := some "auth_failure", message := some "server text",
                  execution_time := some 7 } } =
      .error (.apiError .auth_failure (some "server text") (some 7))) :=
  ⟨check_response_auth_failure_message _ _ rfl rfl,
   check_response_auth_failure_message _ _ rfl rfl⟩

/-- C10: exiting a scope when the session of the client is none is not a
no-op: __exit__ unconditionally dereferences self.session to call close, so
for every sessionless client the AttributeError branch is taken. -/
theorem exit_without_session (c : APICore) (h : c.session = none) :
    c.__exit__ = .error .attributeErrorNoneClose := by
  simp [APICore.__exit__, h]

theorem exit_without_session_witness :
    ({ _auth := none, session := none } : APICore).__exit__ =
      .error .attributeErrorNoneClose :=
  exit_without_session _ rfl

/-- C9: the auth setter normalizes its input: None clears the strategy, an
already constructed StaticTokenAuth is stored unchanged (so re-setting a
stored strategy is idempotent), and any other raw credential value is
wrapped into a StaticTokenAuth. -/
theorem auth_setter_normalizes :
    setAuth .pyNone = none ∧
    (∀ s : StaticTokenAuth, setAuth (.strategy s) = some s) ∧
    (∀ t : String, setAuth (.raw t) = some { token := t }) ∧
    (∀ (v : AuthVal) (s : StaticTokenAuth),
      setAuth v = some s → setAuth (.strategy s) = some s) :=
  ⟨rfl, fun _ => rfl, fun _ => rfl, fun _ _ _ => rfl⟩

theorem auth_setter_normalizes_witness :
    setAuth (.strategy { token := "apikey" }) = some { token := "apikey" } :=
  auth_setter_normalizes.2.2.2 (.raw "apikey") { token := "apikey" } rfl

/-- C3 counterexample: the empty-string credential is not treated as unset.
Setting auth to the raw empty string stores a truthy wrapped strategy, so
with a session present whose auth is a token, the resolved auth is the
wrapped empty credential: neither the session auth nor none, contrary to the
claim for empty credential inputs. -/
theorem auth_empty_credential_counterexample :
    c3client.auth ≠ some { token := "sessiontok" } ∧
    c3client.auth ≠ none ∧
    c3client.auth = some { token := "" } := by
  refine ⟨?_, ?_, rfl⟩ <;> decide

/-- C3 amended: for every unset (None) credential input the client auth
resolves to the session auth when a session is present, else to none; a raw
credential (the empty string included) is wrapped into a strategy and used;
at request time an explicit per-call auth override takes precedence, else
the client resolution applies. -/
theorem auth_resolution (c : APICore) :
    (c._auth = none →
      c.auth = (match c.session with
                | some s => s.auth
                | none => none)) ∧
    (∀ t : String, setAuth (.raw t) = some { token := t }) ∧
    (∀ (m u : String) (ps : List (String × ParamValue))
        (ov : StaticTokenAuth),
      (c._make_request m u ps (some ov)).auth = some ov) ∧
    (∀ (m u : String) (ps : List (String × ParamValue)),
      (c._make_request m u ps none).auth = c.auth) := by
  obtain ⟨a, s⟩ := c
  refine ⟨fun h => ?_, fun _ => rfl, fun _ _ _ _ => rfl, fun _ _ _ => rfl⟩
  change a = none at h
  subst h
  cases s <;> rfl

theorem auth_resolution_witness :
    ({ _auth := none,
       session := some { auth := some { token := "k" }, closed := false } } :
      APICore).auth = some { token := "k" } :=
  (auth_resolution
    { _auth := none,
      session := some { auth := some { token := "k" }, closed := false } }).1
    rfl

/-- C4 counterexample: for the recognized status auth_failure on a client
with no resolved auth, the raised error does not carry the message of the
payload: the message is rewritten to the fixed local string, so the claim
that the error is always constructed from the payload fields fails here. -/
theorem check_response_payload_fields_counterexample :
    ({ _auth := none, session := none } : APICore)._check_response
      { httpError := false,
        json := { status := some "auth_failure",
                  message := some "Invalid API key",
                  execution_time := some 5 } } ≠
    .error (.apiError (_status_to_exception "auth_failure")
      (some "Invalid API key") (some 5)) := by
  intro h
  simp [APICore._check_response, _status_to_exception, APICore.auth] at h

/-- C4 amended: for every response with a recognized non-success status,
_check_response raises exactly the kind mapped to that status, with
execution_time taken from the payload and message taken from the payload,
except that the message is the fixed local string when the status is
auth_failure and the client resolves no auth; absent fields default to
none. -/
theorem check_response_recognized_status (c : APICore) (resp : Response)
    (s : String)
    (h1 : resp.httpError = false) (h2 : resp.json.status = some s)
    (h3 : s ≠ "success") :
    c._check_response resp =
      .error (.apiError (_status_to_exception s)
        (if s = "auth_failure" ∧ c.auth = none
         then some "NeverBounceAPIClient.auth is not set"
         else resp.json.message)
        resp.json.execution_time) := by
  simp [APICore._check_response, h1, h2, h3]

theorem check_response_recognized_status_witness :
    ({ _auth := some { token := "k" }, session := none } :
        APICore)._check_response
      { httpError := false,
        json := { status := some "throttle_triggered", message := none,
                  execution_time := none } } =
    .error (.apiError (_status_to_exception "throttle_triggered")
      none none) := by
  have h := check_response_recognized_status
    { _auth := some { token := "k" }, session := none }
    { httpError := false,
      json := { status := some "throttle_triggered", message := none,
                execution_time := none } }
    "throttle_triggered" rfl rfl (by decide)
  simpa using h

/-- C5: entering a scope on a client with no session stores exactly one
fresh session and changes nothing else of the client (the entered value is
the client itself with the new session); exiting through the with protocol
on every path, an exception raised in the body included, closes that session
and clears the reference to none. -/
theorem scoped_session_lifecycle (c : APICore)
    (body : APICore → APICore × Bool) (c2 : APICore) (raised : Bool)
    (h1 : c.session = none)
    (hb : body c.__enter__ = (c2, raised))
    (h2 : c2.session = c.__enter__.session) :
    c.__enter__ = { c with session := some freshSession } ∧
    runWithScope c body =
      .ok (({ c2 with session := none },
            { freshSession with closed := true }), raised) := by
  obtain ⟨a, s⟩ := c
  change s = none at h1
  subst h1
  have he : APICore.__enter__ { _auth := a, session := none } =
      { _auth := a, session := some freshSession } := rfl
  refine ⟨he, ?_⟩
  obtain ⟨a2, s2⟩ := c2
  rw [he] at h2
  change s2 = some freshSession at h2
  subst h2
  simp [runWithScope, hb, APICore.__exit__]

theorem scoped_session_lifecycle_witness :
    ({ _auth := none, session := none } : APICore).__enter__ =
      { _auth := none, session := some freshSession } ∧
    runWithScope { _auth := none, session := none } (fun x => (x, true)) =
      .ok (({ _auth := none, session := none },
            { freshSession with closed := true }), true) :=
  scoped_session_lifecycle { _auth := none, session := none }
    (fun x => (x, true)) { _auth := none, session := some freshSession } true
    rfl rfl rfl

/-- C8: verify with an email and the default flags issues a GET to the
single/check endpoint with the email, address_info 0, credits_info 0 and
max_execution_time 30, the booleans encoded as integers on the wire, and on
a success response returns the parsed payload unchanged. -/
theorem verify_defaults (c : APICore) (transport : Request → Response)
    (email : String)
    (h1 : (transport
      (NeverBounceAPIClient.verify c transport email false false 30).fst
      ).httpError = false)
    (h2 : (transport
      (NeverBounceAPIClient.verify c transport email false false 30).fst
      ).json.status = some "success") :
    (NeverBounceAPIClient.verify c transport email false false 30).fst =
      { method := "GET", url := urlfor "single" "check",
        params := [("email", ParamValue.str email),
                   ("address_info", ParamValue.int 0),
                   ("credits_info", ParamValue.int 0),
                   ("max_execution_time", ParamValue.int 30)],
        auth := c.auth, viaSession := c.session.isSome } ∧
    (NeverBounceAPIClient.verify c transport email false false 30).snd =
      .ok (transport
        (NeverBounceAPIClient.verify c transport email false false 30).fst
        ).json := by
  constructor
  · rfl
  · have h := check_response_success c (transport
      (NeverBounceAPIClient.verify c transport email false false 30).fst)
      h1 h2
    simp [NeverBounceAPIClient.verify] at h ⊢
    rw [h]

theorem verify_defaults_witness :
    (NeverBounceAPIClient.verify { _auth := none, session := none }
      (fun _ => { httpError := false,
                  json := { status := some "success", message := none,
                            execution_time := none } })
      "test@example.com" false false 30).fst =
      { method := "GET", url := urlfor "single" "check",
        params := [("email", ParamValue.str "test@example.com"),
                   ("address_info", ParamValue.int 0),
                   ("credits_info", ParamValue.int 0),
                   ("max_execution_time", ParamValue.int 30)],
        auth := none, viaSession := false } ∧
    (NeverBounceAPIClient.verify { _auth := none, session := none }
      (fun _ => { httpError := false,
                  json := { status := some "success", message := none,
                            execution_time := none } })
      "test@example.com" false false 30).snd =
      .ok { status := some "success", message := none,
            execution_time := none } :=
  verify_defaults { _auth := none, session := none }
    (fun _ => { httpError := false,
                json := { status := some "success", message := none,
                          execution_time := none } })
    "test@example.com" rfl rfl
